import Mathlib

/-!
Shallow embedding of `src/coffee.js`, the client-side behavior layer of the
coffee-shop landing page.  The file models the configuration constants, the
testimonial carousel closure (slide index arithmetic, autoplay interval
timers, hover pause, touch-swipe, DOM writes performed by `updateSlider`),
the smooth-scroll click handler, the button ripple click handler and the
top-level `initCoffeeWebsite` try/catch wrapper.

The repository source contains two copies of the script; their slide-index,
touch-swipe and initialization logic coincide, and where they differ (the
responsive gap of `getSlideWidth`) we follow the first copy, whose lines the
claims cite.  Machine integers are modelled as `Int`/`Nat` (JS numbers stay
small integers here), `null`-able DOM references as `Option`, and statements
that can throw a `TypeError` return `Except String`.
-/

namespace Coffee

/-- Opening and closing hour of one weekday (an entry of
`CONFIG.businessHours`, 24-hour format). -/
structure BusinessDay where
  openHour : Nat
  closeHour : Nat
deriving DecidableEq

/-- The `CONFIG` object literal of coffee.js. -/
structure Config where
  scrollDuration : Nat
  testimonialInterval : Nat
  fadeInThreshold : Rat
  mobileBreakpoint : Nat
  maxPersons : Nat
  minPersons : Nat
  monday : BusinessDay
  tuesday : BusinessDay
  wednesday : BusinessDay
  thursday : BusinessDay
  friday : BusinessDay
  saturday : BusinessDay
  sunday : BusinessDay
deriving DecidableEq

/-- The values assigned to `CONFIG` at the top of coffee.js. -/
def CONFIG : Config :=
  { scrollDuration := 800
    testimonialInterval := 5000
    fadeInThreshold := 0.1
    mobileBreakpoint := 768
    maxPersons := 10
    minPersons := 1
    monday := ⟨8, 20⟩
    tuesday := ⟨8, 20⟩
    wednesday := ⟨8, 20⟩
    thursday := ⟨8, 20⟩
    friday := ⟨8, 20⟩
    saturday := ⟨14, 20⟩
    sunday := ⟨14, 20⟩ }

/-- The `VALIDATION` object literal: the source text of the two regular
expressions (they are only ever read, never executed in this development). -/
structure Validation where
  email : String
  phone : String
deriving DecidableEq

/-- The values assigned to `VALIDATION` at the top of coffee.js. -/
def VALIDATION : Validation :=
  { email := "^[^\\s@]+@[^\\s@]+\\.[^\\s@]+$"
    phone := "^[\\+]?[0-9\\s\\-\\(\\)]\x7b10,\x7d$" }

/-- Slide-index arithmetic of `nextSlide`:
`if (currentSlide < testimonialItems.length - 1) currentSlide++ else currentSlide = 0`. -/
def nextSlideIndex (numItems : Nat) (i : Int) : Int :=
  if i < (numItems : Int) - 1 then i + 1 else 0

/-- Slide-index arithmetic of `prevSlide`:
`if (currentSlide > 0) currentSlide-- else currentSlide = testimonialItems.length - 1`. -/
def prevSlideIndex (numItems : Nat) (i : Int) : Int :=
  if 0 < i then i - 1 else (numItems : Int) - 1

/-- The fixed data captured by the `initTestimonialSlider` closure: which of
the two navigation buttons exist, the `offsetWidth` of each testimonial item,
the number of dot elements and the window width. -/
structure SliderEnv where
  prevBtnPresent : Bool
  nextBtnPresent : Bool
  itemWidths : List Nat
  numDots : Nat
  innerWidth : Nat
deriving DecidableEq

/-- `getSlideWidth`: the first item `offsetWidth` plus the responsive gap
(`window.innerWidth <= 768 ? 20 : 40`), with the `390` fallback when there is
no testimonial item. -/
def getSlideWidth (env : SliderEnv) : Nat :=
  match env.itemWidths with
  | [] => 390
  | w :: _ => w + (if env.innerWidth ≤ 768 then 20 else 40)

/-- The dot classes written by `dots.forEach((dot, index) =>
dot.classList.toggle(..., index === currentSlide))`: dot `index` is active
exactly when it equals the current slide. -/
def activeDots (current : Int) (numDots : Nat) : List Bool :=
  (List.range numDots).map fun (idx : Nat) => decide ((idx : Int) = current)

/-- The DOM pieces written by the carousel: the slider `translateX` value, the
active class of each dot, and the `disabled` flags of the two buttons. -/
structure DomState where
  sliderTransform : Int
  dotsActive : List Bool
  prevDisabled : Bool
  nextDisabled : Bool
deriving DecidableEq

/-- The mutable variables of the carousel closure (`currentSlide`,
`isPlaying`, `autoPlayInterval`, `startX`, `isDragging`), the set of interval
timers currently running (`setInterval` handles not yet cleared), the number
of pending `setTimeout(startAutoPlay, 10000)` callbacks, whether the pointer
hovers the slider, the DOM pieces the carousel writes, and the two shared
constant objects. -/
structure CarouselState where
  currentSlide : Int
  isPlaying : Bool
  autoPlayIntervalVar : Option Nat
  activeTimers : List Nat
  nextHandle : Nat
  pendingRestarts : Nat
  hovered : Bool
  startX : Int
  isDragging : Bool
  dom : DomState
  config : Config
  validation : Validation
deriving DecidableEq

/-- `startAutoPlay`: `autoPlayInterval = setInterval(...)` — a fresh interval
starts running and its handle is stored (a previously running interval is not
cleared and keeps running). -/
def startAutoPlay (s : CarouselState) : CarouselState :=
  { s with
    activeTimers := s.nextHandle :: s.activeTimers
    autoPlayIntervalVar := some s.nextHandle
    nextHandle := s.nextHandle + 1 }

/-- `stopAutoPlay`: `clearInterval(autoPlayInterval)` — clears the interval
whose handle is stored in the variable (a no-op when the variable is still
undefined or that interval was already cleared). -/
def stopAutoPlay (s : CarouselState) : CarouselState :=
  match s.autoPlayIntervalVar with
  | none => s
  | some h => { s with activeTimers := s.activeTimers.erase h }

/-- The DOM pieces after `updateSlider` runs to completion with both buttons
present: transform, dot classes, and both `disabled` flags. -/
def domAfter (env : SliderEnv) (s : CarouselState) : DomState :=
  { sliderTransform := -s.currentSlide * (getSlideWidth env : Int)
    dotsActive := activeDots s.currentSlide env.numDots
    prevDisabled := decide (s.currentSlide = 0)
    nextDisabled := decide (s.currentSlide = (env.itemWidths.length : Int) - 1) }

/-- `updateSlider`: writes the slider transform and the dot classes, then
assigns `prevBtn.disabled` and `nextBtn.disabled`.  The guard of
`initTestimonialSlider` checks only the slider and the dots, so when a button
is `null` the assignment to its `disabled` property throws a `TypeError`. -/
def updateSlider (env : SliderEnv) (s : CarouselState) : Except String CarouselState :=
  let slideWidth : Int := (getSlideWidth env : Int)
  let translateX : Int := -s.currentSlide * slideWidth
  let dom1 : DomState :=
    { s.dom with
      sliderTransform := translateX
      dotsActive := activeDots s.currentSlide env.numDots }
  if env.prevBtnPresent then
    let dom2 : DomState := { dom1 with prevDisabled := decide (s.currentSlide = 0) }
    if env.nextBtnPresent then
      Except.ok { s with dom :=
        { dom2 with nextDisabled := decide (s.currentSlide = (env.itemWidths.length : Int) - 1) } }
    else Except.error "TypeError: cannot set disabled of null nextBtn"
  else Except.error "TypeError: cannot set disabled of null prevBtn"

/-- `nextSlide`: advance the slide index (with wrap-around) and re-render. -/
def nextSlide (env : SliderEnv) (s : CarouselState) : Except String CarouselState :=
  updateSlider env { s with currentSlide := nextSlideIndex env.itemWidths.length s.currentSlide }

/-- `prevSlide`: step the slide index back (with wrap-around) and re-render. -/
def prevSlide (env : SliderEnv) (s : CarouselState) : Except String CarouselState :=
  updateSlider env { s with currentSlide := prevSlideIndex env.itemWidths.length s.currentSlide }

/-- `goToSlide(slideIndex)`: jump to the given dot index and re-render. -/
def goToSlide (env : SliderEnv) (idx : Nat) (s : CarouselState) : Except String CarouselState :=
  updateSlider env { s with currentSlide := (idx : Int) }

/-- `setTimeout(startAutoPlay, 10000)`: one more delayed autoplay restart is
now pending. -/
def scheduleRestart (s : CarouselState) : CarouselState :=
  { s with pendingRestarts := s.pendingRestarts + 1 }

/-- The browser events the carousel listeners react to, plus the firing of an
autoplay interval tick and of a pending delayed restart. -/
inductive Event where
  | clickPrev : Event
  | clickNext : Event
  | clickDot : Nat → Event
  | mouseEnter : Event
  | mouseLeave : Event
  | intervalTick : Nat → Event
  | delayedRestart : Event
  | touchStart : Int → Event
  | touchMove : Event
  | touchEnd : Int → Event
  | windowResize : Event
deriving DecidableEq

/-- One step of the carousel state machine: the body of the event listener
(or timer callback) registered in `initTestimonialSlider` for each event. -/
def step (env : SliderEnv) (e : Event) (s : CarouselState) : Except String CarouselState :=
  match e with
  | Event.clickPrev =>
      (prevSlide env s).map fun s1 => scheduleRestart (stopAutoPlay s1)
  | Event.clickNext =>
      (nextSlide env s).map fun s1 => scheduleRestart (stopAutoPlay s1)
  | Event.clickDot i =>
      (goToSlide env i s).map fun s1 => scheduleRestart (stopAutoPlay s1)
  | Event.mouseEnter =>
      let s1 := { s with hovered := true }
      Except.ok (if s1.isPlaying then stopAutoPlay s1 else s1)
  | Event.mouseLeave =>
      let s1 := { s with hovered := false }
      Except.ok (if s1.isPlaying then startAutoPlay s1 else s1)
  | Event.intervalTick h =>
      if s.activeTimers.contains h then
        if s.isPlaying then nextSlide env s else Except.ok s
      else Except.ok s
  | Event.delayedRestart =>
      if 0 < s.pendingRestarts then
        Except.ok (startAutoPlay { s with pendingRestarts := s.pendingRestarts - 1 })
      else Except.ok s
  | Event.touchStart x =>
      Except.ok (stopAutoPlay { s with startX := x, isDragging := true })
  | Event.touchMove => Except.ok s
  | Event.touchEnd x =>
      if s.isDragging then
        let diffX := s.startX - x
        let moved : Except String CarouselState :=
          if 50 < |diffX| then
            if 0 < diffX then nextSlide env s else prevSlide env s
          else Except.ok s
        moved.map fun s1 =>
          let s2 := { s1 with isDragging := false }
          if s2.isPlaying then scheduleRestart s2 else s2
      else Except.ok s
  | Event.windowResize => updateSlider env s

/-- Which events can actually fire: a button click needs that button in the
DOM (otherwise no listener was attached), a dot click only exists for a dot
index that exists, hover events alternate, an interval tick needs a running
interval with that handle, and a delayed restart needs a pending timeout. -/
def validEvent (env : SliderEnv) (s : CarouselState) : Event → Bool
  | Event.clickPrev => env.prevBtnPresent
  | Event.clickNext => env.nextBtnPresent
  | Event.clickDot i => decide (i < env.numDots)
  | Event.mouseEnter => !s.hovered
  | Event.mouseLeave => s.hovered
  | Event.intervalTick h => s.activeTimers.contains h
  | Event.delayedRestart => decide (0 < s.pendingRestarts)
  | Event.touchStart _ => true
  | Event.touchMove => true
  | Event.touchEnd _ => true
  | Event.windowResize => true

/-- The DOM elements `initTestimonialSlider` queries: presence of the slider,
the dot elements (their initial active classes), the two nullable buttons
(their initial disabled flags), the testimonial item widths, and the window
width. -/
structure PageDom where
  sliderPresent : Bool
  dots : List Bool
  prevBtn : Option Bool
  nextBtn : Option Bool
  itemWidths : List Nat
  innerWidth : Nat
deriving DecidableEq

/-- The slider environment captured from a page DOM. -/
def envOf (d : PageDom) : SliderEnv :=
  { prevBtnPresent := d.prevBtn.isSome
    nextBtnPresent := d.nextBtn.isSome
    itemWidths := d.itemWidths
    numDots := d.dots.length
    innerWidth := d.innerWidth }

/-- The closure variables right after their declarations in
`initTestimonialSlider`: `currentSlide = 0`, `isPlaying = true`,
`autoPlayInterval` undefined, `startX = 0`, `isDragging = false`, no timer
running, the DOM still as found. -/
def baseState (d : PageDom) : CarouselState :=
  { currentSlide := 0
    isPlaying := true
    autoPlayIntervalVar := none
    activeTimers := []
    nextHandle := 0
    pendingRestarts := 0
    hovered := false
    startX := 0
    isDragging := false
    dom :=
      { sliderTransform := 0
        dotsActive := d.dots
        prevDisabled := d.prevBtn.getD false
        nextDisabled := d.nextBtn.getD false }
    config := CONFIG
    validation := VALIDATION }

/-- `initTestimonialSlider`: returns early (doing nothing) when the slider or
the dots are missing (`if (!slider || !dots.length) return`); otherwise it
attaches the listeners — `prevBtn.addEventListener` / `nextBtn.addEventListener`
throw a `TypeError` when the button is `null` — then runs `updateSlider()` and
`startAutoPlay()`. -/
def initTestimonialSlider (d : PageDom) : Except String (Option CarouselState) :=
  if !d.sliderPresent || d.dots.isEmpty then Except.ok none
  else if d.prevBtn.isNone then
    Except.error "TypeError: cannot call addEventListener of null prevBtn"
  else if d.nextBtn.isNone then
    Except.error "TypeError: cannot call addEventListener of null nextBtn"
  else
    (updateSlider (envOf d) (baseState d)).map fun s => some (startAutoPlay s)

/-- The body of the `try` block of `initCoffeeWebsite`: the initializers run
in sequence.  Of the initializers, only `initTestimonialSlider` dereferences
nullable elements before the top-level catch (the others only attach
listeners to the element lists returned by `querySelectorAll` and write
styles of elements they null-check), so the body throws exactly when it
does. -/
def initSequence (d : PageDom) : Except String Unit :=
  (initTestimonialSlider d).map fun _ => ()

/-- What `initCoffeeWebsite` leaves behind: whether the success message was
logged, and the error caught and logged by the `catch` block, if any. -/
structure InitLog where
  success : Bool
  caughtError : Option String
deriving DecidableEq

/-- `initCoffeeWebsite`: runs the initializers inside `try`, logs success, and
catches any thrown error, logging it with `console.error`.  Its return type
is a plain record: no error propagates to the caller. -/
def initCoffeeWebsite (d : PageDom) : InitLog :=
  match initSequence d with
  | Except.ok _ => { success := true, caughtError := none }
  | Except.error e => { success := false, caughtError := some e }

/-- Outcome of one click on a smooth-scroll navigation link: the handler
always calls `e.preventDefault()`, and scrolls to the target section only
when `document.querySelector(targetId)` finds it. -/
structure ClickOutcome where
  preventedDefault : Bool
  scrolledTo : Option String
deriving DecidableEq

/-- The click handler attached by `initSmoothScrolling`, over the list of
section ids present in the page. -/
def navLinkClick (sections : List String) (href : String) : ClickOutcome :=
  { preventedDefault := true
    scrolledTo := if sections.contains href then some href else none }

/-- A bounding client rect (JS numbers modelled as rationals, since the
ripple handler halves them). -/
structure Rect where
  left : Rat
  top : Rat
  width : Rat
  height : Rat
deriving DecidableEq

/-- A ripple `span` element created by the button click handler: its size,
position and the `ripple` class. -/
structure RippleSpan where
  width : Rat
  height : Rat
  left : Rat
  top : Rat
  hasRippleClass : Bool
deriving DecidableEq

/-- The children of a button, as mutated by the ripple handler. -/
structure ButtonState where
  children : List RippleSpan
deriving DecidableEq

/-- The ripple click handler of `initHoverAnimations`: builds a `span` sized
to the button, positions it at the click point, and `this.appendChild(ripple)`
inserts it into the button (it is removed again 600 ms later). -/
def rippleClick (rect : Rect) (clientX clientY : Rat) (b : ButtonState) : ButtonState :=
  let size := max rect.width rect.height
  let x := clientX - rect.left - size / 2
  let y := clientY - rect.top - size / 2
  { b with children := b.children ++
      [{ width := size, height := size, left := x, top := y, hasRippleClass := true }] }

/-- Run a list of events through the carousel step function, propagating a
thrown error. -/
def runEvents (env : SliderEnv) : Except String CarouselState → List Event → Except String CarouselState
  | s, [] => s
  | s, e :: es => runEvents env (s.bind (step env e)) es

/-- Whether every event of the list can actually fire at the state it is
applied in (and no step throws along the way). -/
def allValid (env : SliderEnv) : Except String CarouselState → List Event → Bool
  | Except.error _, _ => false
  | Except.ok _, [] => true
  | Except.ok s, e :: es => validEvent env s e && allValid env (step env e s) es

/-- The slide index of a non-thrown carousel state. -/
def slideOf : Except String CarouselState → Option Int
  | Except.ok s => some s.currentSlide
  | Except.error _ => none

/-- The hover flag of a non-thrown carousel state. -/
def hoveredOf : Except String CarouselState → Option Bool
  | Except.ok s => some s.hovered
  | Except.error _ => none

/-- Events that involve no manual interaction with the carousel: hover
transitions, timer firings and window resizes, but no button/dot click and no
touch gesture. -/
def hoverOnlyEvent : Event → Bool
  | Event.mouseEnter => true
  | Event.mouseLeave => true
  | Event.intervalTick _ => true
  | Event.delayedRestart => true
  | Event.touchMove => true
  | Event.windowResize => true
  | _ => false

/-- Invariant of executions without manual interaction: the playing flag is
set (the source never assigns `isPlaying`), no delayed restart is pending,
while hovered no interval runs, and while not hovered exactly the stored
interval runs. -/
def HoverInv (s : CarouselState) : Prop :=
  s.isPlaying = true ∧ s.pendingRestarts = 0 ∧
    (s.hovered = true → s.activeTimers = []) ∧
    (s.hovered = false →
      s.activeTimers = s.autoPlayIntervalVar.toList ∧ s.autoPlayIntervalVar.isSome = true)

instance (s : CarouselState) : Decidable (HoverInv s) := by
  unfold HoverInv; infer_instance

/-- Extract the state of a non-thrown result, with a fallback. -/
def okOr (fallback : CarouselState) : Except String CarouselState → CarouselState
  | Except.ok s => s
  | Except.error _ => fallback

/-- A fully populated page: slider present, three dots, both buttons, three
350px-wide testimonial items, desktop window. -/
def domX : PageDom :=
  { sliderPresent := true
    dots := [false, false, false]
    prevBtn := some false
    nextBtn := some false
    itemWidths := [350, 350, 350]
    innerWidth := 1024 }

/-- The slider environment of the fully populated page. -/
def envX : SliderEnv := envOf domX

/-- The carousel state right after `initTestimonialSlider` on the fully
populated page. -/
def s0X : CarouselState :=
  match initTestimonialSlider domX with
  | Except.ok (some s) => s
  | _ => baseState domX

/-- The state after clicking the next button once on the fully populated
page. -/
def s1X : CarouselState := okOr (baseState domX) (step envX Event.clickNext s0X)

/-- The state after a touch has started (drag in progress, finger at
x = 100). -/
def sDragX : CarouselState := okOr (baseState domX) (step envX (Event.touchStart 100) s0X)

/-- The state after the drag ends at x = 30 (a 70px left swipe). -/
def sEndX : CarouselState := okOr (baseState domX) (step envX (Event.touchEnd 30) sDragX)

/-- The state produced by `updateSlider` on the initial state of the fully
populated page. -/
def sUpdX : CarouselState := okOr (baseState domX) (updateSlider envX s0X)

/-- A page whose slider element is missing. -/
def domNoSlider : PageDom :=
  { sliderPresent := false
    dots := [false, false]
    prevBtn := some false
    nextBtn := some false
    itemWidths := [350, 350]
    innerWidth := 1024 }

/-- A page with slider and dots present but no `#prevBtn` element. -/
def domNoPrev : PageDom :=
  { sliderPresent := true
    dots := [false, false]
    prevBtn := none
    nextBtn := some false
    itemWidths := [350, 350]
    innerWidth := 1024 }

/-- A sample bounding rect for the ripple counterexample. -/
def rect0 : Rect := { left := 10, top := 20, width := 120, height := 48 }

/-- A button with no ripple children yet. -/
def btn0 : ButtonState := { children := [] }

/-- The state after the pointer enters the slider on the fully populated
page. -/
def sHovX : CarouselState := okOr (baseState domX) (step envX Event.mouseEnter s0X)

/- ===== Helper lemmas ===== -/

theorem except_map_ok {α β : Type} {f : α → β} {x : Except String α} {b : β}
    (h : x.map f = Except.ok b) : ∃ a, x = Except.ok a ∧ b = f a := by
  cases x with
  | error e => simp [Except.map] at h
  | ok a => refine ⟨a, rfl, ?_⟩; simpa [Except.map] using h.symm

theorem except_isOk_map {α β : Type} (f : α → β) (x : Except String α) :
    (x.map f).isOk = x.isOk := by
  cases x <;> rfl

theorem updateSlider_eq_ok (env : SliderEnv) (s : CarouselState)
    (hp : env.prevBtnPresent = true) (hn : env.nextBtnPresent = true) :
    updateSlider env s = Except.ok { s with dom := domAfter env s } := by
  simp [updateSlider, domAfter, hp, hn]

theorem updateSlider_ok (env : SliderEnv) (s s' : CarouselState)
    (h : updateSlider env s = Except.ok s') :
    s' = { s with dom := domAfter env s } ∧
      env.prevBtnPresent = true ∧ env.nextBtnPresent = true := by
  unfold updateSlider at h
  by_cases hp : env.prevBtnPresent
  · by_cases hn : env.nextBtnPresent
    · simp only [hp, hn, if_true] at h
      refine ⟨?_, hp, hn⟩
      exact (Except.ok.inj h).symm
    · simp [hp, hn] at h
  · simp [hp] at h

theorem updateSlider_proj (env : SliderEnv) (s s' : CarouselState)
    (h : updateSlider env s = Except.ok s') :
    s'.currentSlide = s.currentSlide ∧ s'.isPlaying = s.isPlaying ∧
    s'.autoPlayIntervalVar = s.autoPlayIntervalVar ∧ s'.activeTimers = s.activeTimers ∧
    s'.nextHandle = s.nextHandle ∧ s'.pendingRestarts = s.pendingRestarts ∧
    s'.hovered = s.hovered ∧ s'.startX = s.startX ∧ s'.isDragging = s.isDragging ∧
    s'.config = s.config ∧ s'.validation = s.validation ∧ s'.dom = domAfter env s := by
  obtain ⟨rfl, -, -⟩ := updateSlider_ok env s s' h
  exact ⟨rfl, rfl, rfl, rfl, rfl, rfl, rfl, rfl, rfl, rfl, rfl, rfl⟩

theorem nextSlide_proj (env : SliderEnv) (s s' : CarouselState)
    (h : nextSlide env s = Except.ok s') :
    s'.currentSlide = nextSlideIndex env.itemWidths.length s.currentSlide ∧
    s'.isPlaying = s.isPlaying ∧
    s'.autoPlayIntervalVar = s.autoPlayIntervalVar ∧ s'.activeTimers = s.activeTimers ∧
    s'.nextHandle = s.nextHandle ∧ s'.pendingRestarts = s.pendingRestarts ∧
    s'.hovered = s.hovered ∧ s'.config = s.config ∧ s'.validation = s.validation := by
  unfold nextSlide at h
  have h' := updateSlider_proj _ _ _ h
  exact ⟨h'.1, h'.2.1, h'.2.2.1, h'.2.2.2.1, h'.2.2.2.2.1, h'.2.2.2.2.2.1,
    h'.2.2.2.2.2.2.1, h'.2.2.2.2.2.2.2.2.2.1, h'.2.2.2.2.2.2.2.2.2.2.1⟩

theorem prevSlide_proj (env : SliderEnv) (s s' : CarouselState)
    (h : prevSlide env s = Except.ok s') :
    s'.currentSlide = prevSlideIndex env.itemWidths.length s.currentSlide ∧
    s'.isPlaying = s.isPlaying ∧
    s'.autoPlayIntervalVar = s.autoPlayIntervalVar ∧ s'.activeTimers = s.activeTimers ∧
    s'.nextHandle = s.nextHandle ∧ s'.pendingRestarts = s.pendingRestarts ∧
    s'.hovered = s.hovered ∧ s'.config = s.config ∧ s'.validation = s.validation := by
  unfold prevSlide at h
  have h' := updateSlider_proj _ _ _ h
  exact ⟨h'.1, h'.2.1, h'.2.2.1, h'.2.2.2.1, h'.2.2.2.2.1, h'.2.2.2.2.2.1,
    h'.2.2.2.2.2.2.1, h'.2.2.2.2.2.2.2.2.2.1, h'.2.2.2.2.2.2.2.2.2.2.1⟩

theorem goToSlide_proj (env : SliderEnv) (i : Nat) (s s' : CarouselState)
    (h : goToSlide env i s = Except.ok s') :
    s'.currentSlide = (i : Int) ∧ s'.isPlaying = s.isPlaying ∧
    s'.autoPlayIntervalVar = s.autoPlayIntervalVar ∧ s'.activeTimers = s.activeTimers ∧
    s'.nextHandle = s.nextHandle ∧ s'.pendingRestarts = s.pendingRestarts ∧
    s'.hovered = s.hovered ∧ s'.config = s.config ∧ s'.validation = s.validation := by
  unfold goToSlide at h
  have h' := updateSlider_proj _ _ _ h
  exact ⟨h'.1, h'.2.1, h'.2.2.1, h'.2.2.2.1, h'.2.2.2.2.1, h'.2.2.2.2.2.1,
    h'.2.2.2.2.2.2.1, h'.2.2.2.2.2.2.2.2.2.1, h'.2.2.2.2.2.2.2.2.2.2.1⟩

theorem stopAutoPlay_proj (s : CarouselState) :
    (stopAutoPlay s).currentSlide = s.currentSlide ∧
    (stopAutoPlay s).isPlaying = s.isPlaying ∧
    (stopAutoPlay s).autoPlayIntervalVar = s.autoPlayIntervalVar ∧
    (stopAutoPlay s).nextHandle = s.nextHandle ∧
    (stopAutoPlay s).pendingRestarts = s.pendingRestarts ∧
    (stopAutoPlay s).hovered = s.hovered ∧
    (stopAutoPlay s).startX = s.startX ∧
    (stopAutoPlay s).isDragging = s.isDragging ∧
    (stopAutoPlay s).dom = s.dom ∧
    (stopAutoPlay s).config = s.config ∧
    (stopAutoPlay s).validation = s.validation := by
  unfold stopAutoPlay
  cases hv : s.autoPlayIntervalVar <;> simp [hv]

theorem stopAutoPlay_timers_none (s : CarouselState)
    (h : s.autoPlayIntervalVar = none) :
    (stopAutoPlay s).activeTimers = s.activeTimers := by
  unfold stopAutoPlay; rw [h]

theorem stopAutoPlay_timers_some (s : CarouselState) (h0 : Nat)
    (h : s.autoPlayIntervalVar = some h0) :
    (stopAutoPlay s).activeTimers = s.activeTimers.erase h0 := by
  unfold stopAutoPlay; rw [h]

@[simp] theorem stopAutoPlay_currentSlide (s : CarouselState) :
    (stopAutoPlay s).currentSlide = s.currentSlide := (stopAutoPlay_proj s).1

@[simp] theorem stopAutoPlay_isPlaying (s : CarouselState) :
    (stopAutoPlay s).isPlaying = s.isPlaying := (stopAutoPlay_proj s).2.1

@[simp] theorem stopAutoPlay_intervalVar (s : CarouselState) :
    (stopAutoPlay s).autoPlayIntervalVar = s.autoPlayIntervalVar :=
  (stopAutoPlay_proj s).2.2.1

@[simp] theorem stopAutoPlay_nextHandle (s : CarouselState) :
    (stopAutoPlay s).nextHandle = s.nextHandle := (stopAutoPlay_proj s).2.2.2.1

@[simp] theorem stopAutoPlay_pendingRestarts (s : CarouselState) :
    (stopAutoPlay s).pendingRestarts = s.pendingRestarts := (stopAutoPlay_proj s).2.2.2.2.1

@[simp] theorem stopAutoPlay_hovered (s : CarouselState) :
    (stopAutoPlay s).hovered = s.hovered := (stopAutoPlay_proj s).2.2.2.2.2.1

@[simp] theorem stopAutoPlay_startX (s : CarouselState) :
    (stopAutoPlay s).startX = s.startX := (stopAutoPlay_proj s).2.2.2.2.2.2.1

@[simp] theorem stopAutoPlay_isDragging (s : CarouselState) :
    (stopAutoPlay s).isDragging = s.isDragging := (stopAutoPlay_proj s).2.2.2.2.2.2.2.1

@[simp] theorem stopAutoPlay_dom (s : CarouselState) :
    (stopAutoPlay s).dom = s.dom := (stopAutoPlay_proj s).2.2.2.2.2.2.2.2.1

@[simp] theorem stopAutoPlay_config (s : CarouselState) :
    (stopAutoPlay s).config = s.config := (stopAutoPlay_proj s).2.2.2.2.2.2.2.2.2.1

@[simp] theorem stopAutoPlay_validation (s : CarouselState) :
    (stopAutoPlay s).validation = s.validation := (stopAutoPlay_proj s).2.2.2.2.2.2.2.2.2.2

theorem step_frame (env : SliderEnv) (e : Event) (s s' : CarouselState)
    (h : step env e s = Except.ok s') :
    s'.config = s.config ∧ s'.validation = s.validation ∧ s'.isPlaying = s.isPlaying := by
  cases e <;> simp only [step] at h
  case clickPrev =>
    obtain ⟨s1, h1, rfl⟩ := except_map_ok h
    have hp := prevSlide_proj _ _ _ h1
    simp only [scheduleRestart, stopAutoPlay_config, stopAutoPlay_validation,
      stopAutoPlay_isPlaying]
    exact ⟨hp.2.2.2.2.2.2.2.1, hp.2.2.2.2.2.2.2.2, hp.2.1⟩
  case clickNext =>
    obtain ⟨s1, h1, rfl⟩ := except_map_ok h
    have hp := nextSlide_proj _ _ _ h1
    simp only [scheduleRestart, stopAutoPlay_config, stopAutoPlay_validation,
      stopAutoPlay_isPlaying]
    exact ⟨hp.2.2.2.2.2.2.2.1, hp.2.2.2.2.2.2.2.2, hp.2.1⟩
  case clickDot i =>
    obtain ⟨s1, h1, rfl⟩ := except_map_ok h
    have hp := goToSlide_proj _ _ _ _ h1
    simp only [scheduleRestart, stopAutoPlay_config, stopAutoPlay_validation,
      stopAutoPlay_isPlaying]
    exact ⟨hp.2.2.2.2.2.2.2.1, hp.2.2.2.2.2.2.2.2, hp.2.1⟩
  case mouseEnter =>
    obtain rfl := Except.ok.inj h
    split <;> simp
  case mouseLeave =>
    obtain rfl := Except.ok.inj h
    split <;> simp [startAutoPlay]
  case intervalTick k =>
    split at h
    · split at h
      · have hp := nextSlide_proj _ _ _ h
        exact ⟨hp.2.2.2.2.2.2.2.1, hp.2.2.2.2.2.2.2.2, hp.2.1⟩
      · obtain rfl := Except.ok.inj h
        exact ⟨rfl, rfl, rfl⟩
    · obtain rfl := Except.ok.inj h
      exact ⟨rfl, rfl, rfl⟩
  case delayedRestart =>
    split at h <;> obtain rfl := Except.ok.inj h
    · simp [startAutoPlay]
    · exact ⟨rfl, rfl, rfl⟩
  case touchStart x =>
    obtain rfl := Except.ok.inj h
    simp
  case touchMove =>
    obtain rfl := Except.ok.inj h
    exact ⟨rfl, rfl, rfl⟩
  case touchEnd x =>
    split at h
    · obtain ⟨s1, h1, rfl⟩ := except_map_ok h
      have hcore : s1.config = s.config ∧ s1.validation = s.validation ∧
          s1.isPlaying = s.isPlaying := by
        split at h1
        · split at h1
          · have hp := nextSlide_proj _ _ _ h1
            exact ⟨hp.2.2.2.2.2.2.2.1, hp.2.2.2.2.2.2.2.2, hp.2.1⟩
          · have hp := prevSlide_proj _ _ _ h1
            exact ⟨hp.2.2.2.2.2.2.2.1, hp.2.2.2.2.2.2.2.2, hp.2.1⟩
        · obtain rfl := Except.ok.inj h1
          exact ⟨rfl, rfl, rfl⟩
      dsimp only
      split <;> simp [scheduleRestart, hcore.1, hcore.2.1, hcore.2.2]
    · obtain rfl := Except.ok.inj h
      exact ⟨rfl, rfl, rfl⟩
  case windowResize =>
    have hp := updateSlider_proj _ _ _ h
    exact ⟨hp.2.2.2.2.2.2.2.2.2.1, hp.2.2.2.2.2.2.2.2.2.2.1, hp.2.1⟩

theorem activeDots_length (c : Int) (n : Nat) : (activeDots c n).length = n := by
  unfold activeDots
  rw [List.length_map, List.length_range]

theorem activeDots_getElem (c : Int) (n j : Nat) (hj : j < (activeDots c n).length) :
    (activeDots c n)[j] = decide ((j : Int) = c) := by
  unfold activeDots at hj ⊢
  simp only [List.getElem_map, List.getElem_range]

theorem nextSlideIndex_bounds (n : Nat) (i : Int) (hn : 1 ≤ n) (h0 : 0 ≤ i) :
    0 ≤ nextSlideIndex n i ∧ nextSlideIndex n i < (n : Int) := by
  unfold nextSlideIndex; split <;> omega

theorem prevSlideIndex_bounds (n : Nat) (i : Int) (hn : 1 ≤ n) (h0 : 0 ≤ i)
    (hi : i < (n : Int)) :
    0 ≤ prevSlideIndex n i ∧ prevSlideIndex n i < (n : Int) := by
  unfold prevSlideIndex; split <;> omega

/- ===== Claim theorems ===== -/

/-- C1: for every item count n ≥ 1 and slide index i with 0 ≤ i < n, the
nextSlide arithmetic sends i to (i + 1) mod n — incrementing when i < n - 1
and wrapping to 0 when i = n - 1 — and a click on the next button sets the
machine slide index accordingly. -/
theorem nextSlide_advances_mod_count (n : Nat) (i : Int)
    (hn : 1 ≤ n) (h0 : 0 ≤ i) (hi : i < (n : Int)) :
    nextSlideIndex n i = (i + 1) % (n : Int) ∧
    (i < (n : Int) - 1 → nextSlideIndex n i = i + 1) ∧
    (i = (n : Int) - 1 → nextSlideIndex n i = 0) ∧
    (∀ (env : SliderEnv) (s s' : CarouselState),
      env.itemWidths.length = n → s.currentSlide = i →
      step env Event.clickNext s = Except.ok s' →
      s'.currentSlide = (i + 1) % (n : Int)) := by
  have hmod : nextSlideIndex n i = (i + 1) % (n : Int) := by
    unfold nextSlideIndex
    split
    · rw [Int.emod_eq_of_lt (by omega) (by omega)]
    · have hin : i + 1 = (n : Int) := by omega
      rw [hin, Int.emod_self]
  refine ⟨hmod, ?_, ?_, ?_⟩
  · intro hlt; unfold nextSlideIndex; rw [if_pos hlt]
  · intro heq; unfold nextSlideIndex; rw [if_neg (by omega)]
  · intro env s s' hlen hcur hstep
    unfold step at hstep
    obtain ⟨s1, h1, rfl⟩ := except_map_ok hstep
    have hp := nextSlide_proj env s s1 h1
    have hs := stopAutoPlay_proj s1
    simp only [scheduleRestart]
    rw [hs.1, hp.1, hlen, hcur, hmod]

/-- C1 witness: with three items, one click from slide 1 lands on
(1 + 1) mod 3. -/
theorem nextSlide_advances_mod_count_witness :
    nextSlideIndex 3 1 = ((1 : Int) + 1) % ((3 : Nat) : Int) :=
  (nextSlide_advances_mod_count 3 1 (by decide) (by decide) (by decide)).1

/-- C8: for every item count n ≥ 1 and slide index i with 0 ≤ i < n,
prevSlide after nextSlide returns the index to i, and nextSlide after
prevSlide does too: the two wrap-around operations are mutual inverses. -/
theorem next_prev_mutual_inverses (n : Nat) (i : Int)
    (hn : 1 ≤ n) (h0 : 0 ≤ i) (hi : i < (n : Int)) :
    prevSlideIndex n (nextSlideIndex n i) = i ∧
    nextSlideIndex n (prevSlideIndex n i) = i := by
  unfold nextSlideIndex prevSlideIndex
  constructor <;> split_ifs <;> omega

/-- C8 witness: the round trips at n = 3, i = 2 (the wrap-around endpoint). -/
theorem next_prev_mutual_inverses_witness :
    prevSlideIndex 3 (nextSlideIndex 3 2) = 2 :=
  (next_prev_mutual_inverses 3 2 (by decide) (by decide) (by decide)).1

/-- C5: a touchend at coordinate x while a drag started at startX is in
progress advances to the next slide when startX - x > 50, goes to the
previous slide when x - startX > 50, and leaves the slide index unchanged
when the swipe distance is at most 50. -/
theorem touchEnd_swipe_threshold (env : SliderEnv) (s s' : CarouselState) (x : Int)
    (hd : s.isDragging = true)
    (hstep : step env (Event.touchEnd x) s = Except.ok s') :
    (50 < s.startX - x →
      s'.currentSlide = nextSlideIndex env.itemWidths.length s.currentSlide) ∧
    (50 < x - s.startX →
      s'.currentSlide = prevSlideIndex env.itemWidths.length s.currentSlide) ∧
    (|s.startX - x| ≤ 50 → s'.currentSlide = s.currentSlide) := by
  simp only [step] at hstep
  rw [if_pos hd] at hstep
  refine ⟨?_, ?_, ?_⟩
  · intro hc
    rw [if_pos (lt_abs.mpr (Or.inl hc)), if_pos (by omega)] at hstep
    obtain ⟨s1, h1, rfl⟩ := except_map_ok hstep
    have hp := nextSlide_proj env s s1 h1
    by_cases hpl : s1.isPlaying <;> simp [scheduleRestart, hpl, hp.1]
  · intro hc
    rw [if_pos (lt_abs.mpr (Or.inr (by omega))), if_neg (by omega)] at hstep
    obtain ⟨s1, h1, rfl⟩ := except_map_ok hstep
    have hp := prevSlide_proj env s s1 h1
    by_cases hpl : s1.isPlaying <;> simp [scheduleRestart, hpl, hp.1]
  · intro hc
    rw [if_neg (by rw [not_lt]; exact hc)] at hstep
    obtain ⟨s1, h1, rfl⟩ := except_map_ok hstep
    cases h1
    by_cases hpl : s.isPlaying <;> simp [scheduleRestart, hpl]

/-- C5 witness: on the populated page, a 70px left swipe (100 → 30) advances
the slide. -/
theorem touchEnd_swipe_threshold_witness :
    sEndX.currentSlide = nextSlideIndex envX.itemWidths.length sDragX.currentSlide :=
  (touchEnd_swipe_threshold envX sDragX sEndX 30 rfl rfl).1 (by decide)

/-- C2 (amended): initTestimonialSlider silently no-ops when the slider or
the dots are missing, and the smooth-scroll click handler scrolls nowhere
when the target section is absent; however updateSlider is NOT null-safe for
the buttons: it throws a TypeError when prevBtn (or nextBtn) is null even
while the slider and dots are present, and is throw-free only when both
buttons exist. -/
theorem missing_element_handling :
    (∀ d : PageDom, d.sliderPresent = false ∨ d.dots = [] →
      initTestimonialSlider d = Except.ok none) ∧
    (∀ (sections : List String) (href : String), sections.contains href = false →
      (navLinkClick sections href).scrolledTo = none) ∧
    (∀ (env : SliderEnv) (s : CarouselState), env.prevBtnPresent = false →
      updateSlider env s = Except.error "TypeError: cannot set disabled of null prevBtn") ∧
    (∀ (env : SliderEnv) (s : CarouselState),
      env.prevBtnPresent = true → env.nextBtnPresent = false →
      updateSlider env s = Except.error "TypeError: cannot set disabled of null nextBtn") ∧
    (∀ (env : SliderEnv) (s : CarouselState),
      env.prevBtnPresent = true → env.nextBtnPresent = true →
      (updateSlider env s).isOk = true) := by
  refine ⟨?_, ?_, ?_, ?_, ?_⟩
  · rintro d (hs | hd)
    · simp [initTestimonialSlider, hs]
    · simp [initTestimonialSlider, hd]
  · intro sections href h
    simp only [navLinkClick, h, Bool.false_eq_true, if_false]
  · intro env s h
    simp [updateSlider, h]
  · intro env s hp hn
    simp [updateSlider, hp, hn]
  · intro env s hp hn
    rw [updateSlider_eq_ok env s hp hn]; rfl

/-- C2 witness: a page whose slider element is missing is initialized to
nothing, without an error. -/
theorem missing_element_handling_witness :
    initTestimonialSlider domNoSlider = Except.ok none :=
  missing_element_handling.1 domNoSlider (Or.inl rfl)

/-- C2 counterexample: on a page where the slider and two dots are present
but `#prevBtn` is missing, updateSlider throws a TypeError instead of
no-opping, refuting «updateSlider must not throw when prevBtn or nextBtn is
null while the slider and dots are present». -/
theorem updateSlider_throws_on_null_button :
    domNoPrev.sliderPresent = true ∧ domNoPrev.dots ≠ [] ∧
    updateSlider (envOf domNoPrev) (baseState domNoPrev) =
      Except.error "TypeError: cannot set disabled of null prevBtn" :=
  ⟨rfl, by decide, rfl⟩

/-- C3: every error thrown by an initializer inside the try block of
initCoffeeWebsite is caught and logged by the catch block; initCoffeeWebsite
itself returns a plain log record, so the error never propagates to its
caller. -/
theorem initCoffeeWebsite_catches_all (d : PageDom) (e : String)
    (h : initSequence d = Except.error e) :
    initCoffeeWebsite d = { success := false, caughtError := some e } := by
  unfold initCoffeeWebsite
  rw [h]

/-- C3 witness: the TypeError thrown while initializing the slider of a page
without `#prevBtn` is caught and logged. -/
theorem initCoffeeWebsite_catches_all_witness :
    initCoffeeWebsite domNoPrev =
      { success := false,
        caughtError := some "TypeError: cannot call addEventListener of null prevBtn" } :=
  initCoffeeWebsite_catches_all domNoPrev
    "TypeError: cannot call addEventListener of null prevBtn" rfl

/-- C4 (amended): while the playing flag is set, mouseenter stops the stored
autoplay interval (leaving none running) and mouseleave starts a fresh one;
consequently in every execution made of hover transitions, timer firings and
resizes only — i.e. with no pending setTimeout restart from a previous manual
interaction — no interval tick (and hence no autoplay slide advance) can fire
between a mouseenter and the following mouseleave.  (With manual
interactions the guarantee fails: see the counterexample.) -/
theorem pause_on_hover_without_interactions (env : SliderEnv) :
    (∀ s s' : CarouselState, HoverInv s → s.hovered = false →
      step env Event.mouseEnter s = Except.ok s' →
      s'.activeTimers = [] ∧ s'.hovered = true) ∧
    (∀ s s' : CarouselState, HoverInv s → s.hovered = true →
      step env Event.mouseLeave s = Except.ok s' →
      s'.activeTimers = [s.nextHandle] ∧ s'.autoPlayIntervalVar = some s.nextHandle) ∧
    (∀ (s : CarouselState) (k : Nat), HoverInv s → s.hovered = true →
      validEvent env s (Event.intervalTick k) = false) ∧
    (∀ (e : Event) (s s' : CarouselState), HoverInv s → hoverOnlyEvent e = true →
      validEvent env s e = true → step env e s = Except.ok s' → HoverInv s') ∧
    (∀ (d : PageDom) (s0 : CarouselState),
      initTestimonialSlider d = Except.ok (some s0) → HoverInv s0) := by
  refine ⟨?_, ?_, ?_, ?_, ?_⟩
  · intro s s' hi hh hstep
    obtain ⟨hpl, hpend, hht, hhf⟩ := hi
    obtain ⟨htl, hsome⟩ := hhf hh
    obtain ⟨k, hk⟩ := Option.isSome_iff_exists.mp hsome
    simp only [step] at hstep
    rw [if_pos (show ({ s with hovered := true } : CarouselState).isPlaying = true from hpl)]
      at hstep
    obtain rfl := Except.ok.inj hstep
    refine ⟨?_, by simp⟩
    rw [stopAutoPlay_timers_some { s with hovered := true } k hk]
    show s.activeTimers.erase k = []
    rw [htl, hk]
    simp [Option.toList]
  · intro s s' hi hh hstep
    obtain ⟨hpl, hpend, hht, hhf⟩ := hi
    have htl := hht hh
    simp only [step] at hstep
    rw [if_pos (show ({ s with hovered := false } : CarouselState).isPlaying = true from hpl)]
      at hstep
    obtain rfl := Except.ok.inj hstep
    constructor
    · show s.nextHandle :: s.activeTimers = [s.nextHandle]
      rw [htl]
    · rfl
  · intro s k hi hh
    obtain ⟨-, -, hht, -⟩ := hi
    have htl := hht hh
    simp [validEvent, htl]
  · intro e s s' hi hre hval hstep
    obtain ⟨hpl, hpend, hht, hhf⟩ := hi
    cases e <;> simp only [step] at hstep
    case clickPrev => simp [hoverOnlyEvent] at hre
    case clickNext => simp [hoverOnlyEvent] at hre
    case clickDot i => simp [hoverOnlyEvent] at hre
    case touchStart x => simp [hoverOnlyEvent] at hre
    case touchEnd x => simp [hoverOnlyEvent] at hre
    case mouseEnter =>
      have hh : s.hovered = false := by simpa [validEvent] using hval
      obtain ⟨htl, hsome⟩ := hhf hh
      obtain ⟨k, hk⟩ := Option.isSome_iff_exists.mp hsome
      rw [if_pos (show ({ s with hovered := true } : CarouselState).isPlaying = true from hpl)]
        at hstep
      obtain rfl := Except.ok.inj hstep
      refine ⟨by simpa using hpl, by simpa using hpend, ?_, ?_⟩
      · intro _
        rw [stopAutoPlay_timers_some { s with hovered := true } k hk]
        show s.activeTimers.erase k = []
        rw [htl, hk]
        simp [Option.toList]
      · intro hcontra
        simp at hcontra
    case mouseLeave =>
      have hh : s.hovered = true := by simpa [validEvent] using hval
      have htl := hht hh
      rw [if_pos (show ({ s with hovered := false } : CarouselState).isPlaying = true from hpl)]
        at hstep
      obtain rfl := Except.ok.inj hstep
      refine ⟨by simp [startAutoPlay, hpl], by simp [startAutoPlay, hpend], ?_, ?_⟩
      · intro hcontra
        simp [startAutoPlay] at hcontra
      · intro _
        constructor
        · show s.nextHandle :: s.activeTimers = (some s.nextHandle).toList
          rw [htl]
          rfl
        · rfl
    case intervalTick k =>
      have hmem : s.activeTimers.contains k = true := by simpa [validEvent] using hval
      rw [if_pos hmem, if_pos hpl] at hstep
      have hp := nextSlide_proj _ _ _ hstep
      by_cases hh : s.hovered = true
      · rw [hht hh] at hmem
        simp at hmem
      · have hh' : s.hovered = false := by
          cases hhov : s.hovered
          · rfl
          · exact absurd hhov hh
        obtain ⟨htl, hsome⟩ := hhf hh'
        refine ⟨by rw [hp.2.1]; exact hpl, by rw [hp.2.2.2.2.2.1]; exact hpend, ?_, ?_⟩
        · intro hcontra
          rw [hp.2.2.2.2.2.2.1, hh'] at hcontra
          exact absurd hcontra (by simp)
        · intro _
          rw [hp.2.2.2.1, hp.2.2.1]
          exact ⟨htl, hsome⟩
    case delayedRestart =>
      have : 0 < s.pendingRestarts := by simpa [validEvent] using hval
      omega
    case touchMove =>
      obtain rfl := Except.ok.inj hstep
      exact ⟨hpl, hpend, hht, hhf⟩
    case windowResize =>
      have hp := updateSlider_proj _ _ _ hstep
      refine ⟨by rw [hp.2.1]; exact hpl, by rw [hp.2.2.2.2.2.1]; exact hpend, ?_, ?_⟩
      · intro hh
        rw [hp.2.2.2.2.2.2.1] at hh
        rw [hp.2.2.2.1]
        exact hht hh
      · intro hh
        rw [hp.2.2.2.2.2.2.1] at hh
        rw [hp.2.2.2.1, hp.2.2.1]
        exact hhf hh
  · intro d s0 h
    unfold initTestimonialSlider at h
    split at h
    · simp at h
    · split at h
      · simp at h
      · split at h
        · simp at h
        · obtain ⟨u, hu, hs0⟩ := except_map_ok h
          obtain rfl : s0 = startAutoPlay u := by simpa using hs0
          have hp := updateSlider_proj _ _ _ hu
          refine ⟨?_, ?_, ?_, ?_⟩
          · show u.isPlaying = true
            rw [hp.2.1]; rfl
          · show u.pendingRestarts = 0
            rw [hp.2.2.2.2.2.1]; rfl
          · intro hcontra
            have : u.hovered = false := by rw [hp.2.2.2.2.2.2.1]; rfl
            simp [startAutoPlay, this] at hcontra
          · intro _
            constructor
            · show u.nextHandle :: u.activeTimers = (some u.nextHandle).toList
              have : u.activeTimers = [] := by rw [hp.2.2.2.1]; rfl
              rw [this]
              rfl
            · rfl

/-- C4 witness: on the populated page, right after a mouseenter no interval
tick can fire (handle 0 is the stored interval of the initial state). -/
theorem pause_on_hover_without_interactions_witness :
    validEvent envX sHovX (Event.intervalTick 0) = false :=
  (pause_on_hover_without_interactions envX).2.2.1 sHovX 0 (by decide) (by decide)

/-- C4 counterexample: a click on the next button stops the timer but
schedules a delayed restart; after a mouseenter the restart fires and
re-arms autoplay, and its tick then advances the slide from 1 to 2 while the
pointer is still hovering (before any mouseleave), refuting «no
autoplay-driven slide advance ever happens between a mouseenter and the
following mouseleave».  Every event of the trace is enabled at the state it
fires in. -/
theorem autoplay_advance_while_hovered :
    allValid envX (Except.ok s0X)
      [Event.clickNext, Event.mouseEnter, Event.delayedRestart, Event.intervalTick 1] = true ∧
    hoveredOf (runEvents envX (Except.ok s0X)
      [Event.clickNext, Event.mouseEnter, Event.delayedRestart]) = some true ∧
    slideOf (runEvents envX (Except.ok s0X)
      [Event.clickNext, Event.mouseEnter, Event.delayedRestart]) = some 1 ∧
    hoveredOf (runEvents envX (Except.ok s0X)
      [Event.clickNext, Event.mouseEnter, Event.delayedRestart, Event.intervalTick 1]) =
      some true ∧
    slideOf (runEvents envX (Except.ok s0X)
      [Event.clickNext, Event.mouseEnter, Event.delayedRestart, Event.intervalTick 1]) =
      some 2 :=
  ⟨rfl, rfl, rfl, rfl, rfl⟩

/-- C6 (amended): every carousel step and the slider initialization leave the
shared configuration constants CONFIG and VALIDATION untouched — they are
never written after their definition; the only mutations are the closure
primitives and the DOM pieces in the state, except that the ripple click
handler additionally appends a transient span child to the clicked button
(a DOM-structure mutation beyond CSS classes/styles, removed 600 ms
later). -/
theorem config_validation_never_written :
    (∀ (env : SliderEnv) (e : Event) (s s' : CarouselState),
      step env e s = Except.ok s' →
      s'.config = s.config ∧ s'.validation = s.validation) ∧
    (∀ (d : PageDom) (s0 : CarouselState),
      initTestimonialSlider d = Except.ok (some s0) →
      s0.config = CONFIG ∧ s0.validation = VALIDATION) ∧
    (∀ (rect : Rect) (cx cy : Rat) (b : ButtonState),
      (rippleClick rect cx cy b).children = b.children ++
        [{ width := max rect.width rect.height
           height := max rect.width rect.height
           left := cx - rect.left - max rect.width rect.height / 2
           top := cy - rect.top - max rect.width rect.height / 2
           hasRippleClass := true }]) := by
  refine ⟨?_, ?_, ?_⟩
  · intro env e s s' h
    have hf := step_frame env e s s' h
    exact ⟨hf.1, hf.2.1⟩
  · intro d s0 h
    unfold initTestimonialSlider at h
    split at h
    · simp at h
    · split at h
      · simp at h
      · split at h
        · simp at h
        · obtain ⟨u, hu, hs0⟩ := except_map_ok h
          obtain rfl : s0 = startAutoPlay u := by simpa using hs0
          have hp := updateSlider_proj _ _ _ hu
          constructor
          · show u.config = CONFIG
            rw [hp.2.2.2.2.2.2.2.2.2.1]; rfl
          · show u.validation = VALIDATION
            rw [hp.2.2.2.2.2.2.2.2.2.2.1]; rfl
  · intro rect cx cy b
    rfl

/-- C6 witness: one click on the next button of the populated page changes
neither CONFIG nor VALIDATION. -/
theorem config_validation_never_written_witness :
    s1X.config = s0X.config ∧ s1X.validation = s0X.validation :=
  (config_validation_never_written).1 envX Event.clickNext s0X s1X rfl

/-- C6 counterexample: the ripple click handler inserts a new span child into
the clicked button — a mutation of the DOM tree structure, not of a CSS
class/style of an existing node and not of a carousel-closure primitive —
refuting «every operation mutates only the closure primitives and CSS
classes/styles of DOM nodes». -/
theorem rippleClick_mutates_dom_structure :
    (rippleClick rect0 0 0 btn0).children ≠ btn0.children ∧
    (rippleClick rect0 0 0 btn0).children.length = btn0.children.length + 1 :=
  ⟨by decide, rfl⟩

/-- C7: when the slider, the dots, both navigation buttons and at least one
testimonial item are present, every carousel operation (updateSlider,
nextSlide, prevSlide, goToSlide and every event step, including the touch
handlers and getSlideWidth, which is total by construction) returns normally:
no operation throws. -/
theorem carousel_never_throws (env : SliderEnv)
    (hp : env.prevBtnPresent = true) (hn : env.nextBtnPresent = true)
    (hi : env.itemWidths ≠ []) :
    (∀ s : CarouselState, (updateSlider env s).isOk = true) ∧
    (∀ s : CarouselState, (nextSlide env s).isOk = true) ∧
    (∀ s : CarouselState, (prevSlide env s).isOk = true) ∧
    (∀ (i : Nat) (s : CarouselState), (goToSlide env i s).isOk = true) ∧
    (∀ (e : Event) (s : CarouselState), (step env e s).isOk = true) := by
  have hu : ∀ s : CarouselState, (updateSlider env s).isOk = true := by
    intro s
    rw [updateSlider_eq_ok env s hp hn]
    rfl
  refine ⟨hu, fun s => hu _, fun s => hu _, fun i s => hu _, ?_⟩
  intro e s
  cases e <;> simp only [step]
  case clickPrev => rw [except_isOk_map]; exact hu _
  case clickNext => rw [except_isOk_map]; exact hu _
  case clickDot i => rw [except_isOk_map]; exact hu _
  case mouseEnter => split <;> rfl
  case mouseLeave => split <;> rfl
  case intervalTick k =>
    split
    · split
      · exact hu _
      · rfl
    · rfl
  case delayedRestart => split <;> rfl
  case touchStart x => rfl
  case touchMove => rfl
  case touchEnd x =>
    split
    · rw [except_isOk_map]
      split
      · split
        · exact hu _
        · exact hu _
      · rfl
    · rfl
  case windowResize => exact hu _

/-- C7 witness: a click on the next button of the populated page does not
throw. -/
theorem carousel_never_throws_witness :
    (step envX Event.clickNext s0X).isOk = true :=
  (carousel_never_throws envX rfl rfl (by decide)).2.2.2.2 Event.clickNext s0X

/-- C9: when the number of dots equals the number of items n ≥ 1, the slide
index satisfies 0 ≤ currentSlide < n in the state produced by
initTestimonialSlider, and the bound is preserved by every enabled carousel
event — clicks on the buttons, autoplay ticks, touch swipes, resizes, and
goToSlide via any existing dot (whose index is < n by the precondition). -/
theorem slide_index_invariant (env : SliderEnv)
    (hd : env.numDots = env.itemWidths.length) (hn : 1 ≤ env.itemWidths.length) :
    (∀ (d : PageDom) (s0 : CarouselState), envOf d = env →
      initTestimonialSlider d = Except.ok (some s0) →
      0 ≤ s0.currentSlide ∧ s0.currentSlide < (env.itemWidths.length : Int)) ∧
    (∀ (e : Event) (s s' : CarouselState),
      0 ≤ s.currentSlide → s.currentSlide < (env.itemWidths.length : Int) →
      validEvent env s e = true → step env e s = Except.ok s' →
      0 ≤ s'.currentSlide ∧ s'.currentSlide < (env.itemWidths.length : Int)) := by
  constructor
  · intro d s0 henv h
    unfold initTestimonialSlider at h
    split at h
    · simp at h
    · split at h
      · simp at h
      · split at h
        · simp at h
        · obtain ⟨u, hu, hs0⟩ := except_map_ok h
          obtain rfl : s0 = startAutoPlay u := by simpa using hs0
          have hp := updateSlider_proj _ _ _ hu
          have hz : u.currentSlide = 0 := by rw [hp.1]; rfl
          show 0 ≤ u.currentSlide ∧ u.currentSlide < (env.itemWidths.length : Int)
          rw [hz]
          omega
  · intro e s s' h0 hiu hval hstep
    cases e <;> simp only [step] at hstep
    case clickPrev =>
      obtain ⟨s1, h1, rfl⟩ := except_map_ok hstep
      have hq := prevSlide_proj _ _ _ h1
      have : s1.currentSlide = prevSlideIndex env.itemWidths.length s.currentSlide := hq.1
      simp only [scheduleRestart, stopAutoPlay_currentSlide, this]
      exact prevSlideIndex_bounds _ _ hn h0 hiu
    case clickNext =>
      obtain ⟨s1, h1, rfl⟩ := except_map_ok hstep
      have hq := nextSlide_proj _ _ _ h1
      simp only [scheduleRestart, stopAutoPlay_currentSlide, hq.1]
      exact nextSlideIndex_bounds _ _ hn h0
    case clickDot i =>
      have hi : i < env.numDots := by simpa [validEvent] using hval
      obtain ⟨s1, h1, rfl⟩ := except_map_ok hstep
      have hq := goToSlide_proj _ _ _ _ h1
      simp only [scheduleRestart, stopAutoPlay_currentSlide, hq.1]
      rw [hd] at hi
      omega
    case mouseEnter =>
      obtain rfl := Except.ok.inj hstep
      split <;> simp <;> exact ⟨h0, hiu⟩
    case mouseLeave =>
      obtain rfl := Except.ok.inj hstep
      split <;> simp [startAutoPlay] <;> exact ⟨h0, hiu⟩
    case intervalTick k =>
      split at hstep
      · split at hstep
        · have hq := nextSlide_proj _ _ _ hstep
          rw [hq.1]
          exact nextSlideIndex_bounds _ _ hn h0
        · obtain rfl := Except.ok.inj hstep
          exact ⟨h0, hiu⟩
      · obtain rfl := Except.ok.inj hstep
        exact ⟨h0, hiu⟩
    case delayedRestart =>
      split at hstep <;> obtain rfl := Except.ok.inj hstep
      · simpa [startAutoPlay] using ⟨h0, hiu⟩
      · exact ⟨h0, hiu⟩
    case touchStart x =>
      obtain rfl := Except.ok.inj hstep
      simpa using ⟨h0, hiu⟩
    case touchMove =>
      obtain rfl := Except.ok.inj hstep
      exact ⟨h0, hiu⟩
    case touchEnd x =>
      split at hstep
      · obtain ⟨s1, h1, rfl⟩ := except_map_ok hstep
        have hcore : 0 ≤ s1.currentSlide ∧ s1.currentSlide < (env.itemWidths.length : Int) := by
          split at h1
          · split at h1
            · have hq := nextSlide_proj _ _ _ h1
              rw [hq.1]
              exact nextSlideIndex_bounds _ _ hn h0
            · have hq := prevSlide_proj _ _ _ h1
              rw [hq.1]
              exact prevSlideIndex_bounds _ _ hn h0 hiu
          · obtain rfl := Except.ok.inj h1
            exact ⟨h0, hiu⟩
        dsimp only
        split <;> simpa [scheduleRestart] using hcore
      · obtain rfl := Except.ok.inj hstep
        exact ⟨h0, hiu⟩
    case windowResize =>
      have hq := updateSlider_proj _ _ _ hstep
      rw [hq.1]
      exact ⟨h0, hiu⟩

/-- C9 witness: on the populated page (3 dots, 3 items) the bound holds after
a click on the next button from the initial state. -/
theorem slide_index_invariant_witness :
    0 ≤ s1X.currentSlide ∧ s1X.currentSlide < (envX.itemWidths.length : Int) :=
  (slide_index_invariant envX rfl (by decide)).2 Event.clickNext s0X s1X
    (by decide) (by decide) rfl rfl

/-- C10: after updateSlider succeeds with slide index i and first item width
w, the slider transform is -i times (w plus the responsive gap), exactly the
dot at index i carries the active class, the prev button is disabled iff
i = 0, and the next button is disabled iff i = n - 1. -/
theorem updateSlider_postcondition (env : SliderEnv) (s s' : CarouselState)
    (w : Nat) (rest : List Nat) (hw : env.itemWidths = w :: rest)
    (h : updateSlider env s = Except.ok s') :
    s'.dom.sliderTransform =
      -s.currentSlide * ((w : Int) + (if env.innerWidth ≤ 768 then 20 else 40)) ∧
    s'.dom.dotsActive.length = env.numDots ∧
    (∀ (j : Nat) (hj : j < s'.dom.dotsActive.length),
      s'.dom.dotsActive[j] = decide ((j : Int) = s.currentSlide)) ∧
    (s'.dom.prevDisabled = true ↔ s.currentSlide = 0) ∧
    (s'.dom.nextDisabled = true ↔ s.currentSlide = (env.itemWidths.length : Int) - 1) := by
  have hdom : s'.dom = domAfter env s :=
    (updateSlider_proj env s s' h).2.2.2.2.2.2.2.2.2.2.2
  rw [hdom]
  unfold domAfter
  refine ⟨?_, ?_, ?_, ?_, ?_⟩
  · show -s.currentSlide * ((getSlideWidth env : Nat) : Int) = _
    unfold getSlideWidth
    rw [hw]
    push_cast
    split <;> norm_num
  · exact activeDots_length _ _
  · intro j hj
    exact activeDots_getElem _ _ j hj
  · simp
  · simp

/-- C10 witness: on the populated page at the initial slide 0, the prev
button is disabled exactly because the index is 0. -/
theorem updateSlider_postcondition_witness :
    sUpdX.dom.prevDisabled = true ↔ s0X.currentSlide = 0 :=
  (updateSlider_postcondition envX s0X sUpdX 350 [350, 350] rfl rfl).2.2.2.1

end Coffee
